import Mathlib

/-!
Shallow embedding of the starpc C++ SRPC engine core, translated from
`src/srpc` and `src/rpcstream`. Byte strings are modelled as `String`,
the protobuf tagged union `srpc.Packet` as an inductive with an explicit
unset-body case, and the `PacketWriter` sink as an accumulator of emitted
packets that always accepts a write. Stateful member functions of
`CommonRPC` become pure functions on a `CommonRPC` record, returning the
result code, the updated record and the list of packets pushed to the
writer.
-/

namespace Starpc

/-- Error codes from `src/srpc/errors.hpp` (enum class Error). -/
inductive Error where
  | OK
  | Unimplemented
  | Completed
  | UnrecognizedPacket
  | EmptyPacket
  | InvalidMessage
  | EmptyMethodID
  | EmptyServiceID
  | NoAvailableClients
  | NilWriter
  | Canceled
  | EOF_
deriving DecidableEq, Repr

/-- Display strings from `ErrorString` in `src/srpc/errors.hpp`. -/
def ErrorString : Error → String
  | Error.OK => "ok"
  | Error.Unimplemented => "unimplemented"
  | Error.Completed => "unexpected packet after rpc was completed"
  | Error.UnrecognizedPacket => "unrecognized packet type"
  | Error.EmptyPacket => "invalid empty packet"
  | Error.InvalidMessage => "invalid message"
  | Error.EmptyMethodID => "method id empty"
  | Error.EmptyServiceID => "service id empty"
  | Error.NoAvailableClients => "no available rpc clients"
  | Error.NilWriter => "writer cannot be nil"
  | Error.Canceled => "canceled"
  | Error.EOF_ => "EOF"

/-- The `srpc.CallStart` protobuf body. -/
structure CallStart where
  rpc_service : String
  rpc_method : String
  data : String
  data_is_zero : Bool
deriving DecidableEq, Repr

/-- The `srpc.CallData` protobuf body. An absent `error` field reads as
the empty string, as in protobuf. -/
structure CallData where
  data : String
  data_is_zero : Bool
  complete : Bool
  error : String
deriving DecidableEq, Repr

/-- The `srpc.Packet` tagged union (protobuf oneof body). `unset`
models a packet whose body case is not set, the `default` branch of
`body_case()`. -/
inductive Packet where
  | callStart (p : CallStart)
  | callData (p : CallData)
  | callCancel (b : Bool)
  | unset
deriving DecidableEq, Repr

/-- `ValidateCallStart` from `src/srpc/packet.cpp`: the method id is
checked before the service id. -/
def ValidateCallStart (pkt : CallStart) : Error :=
  if pkt.rpc_method = "" then Error.EmptyMethodID
  else if pkt.rpc_service = "" then Error.EmptyServiceID
  else Error.OK

/-- `ValidateCallData` from `src/srpc/packet.cpp`. -/
def ValidateCallData (pkt : CallData) : Error :=
  if pkt.data = "" ∧ ¬pkt.complete ∧ pkt.error = "" ∧ ¬pkt.data_is_zero then
    Error.EmptyPacket
  else Error.OK

/-- `ValidatePacket` from `src/srpc/packet.cpp`: dispatch on the body
case; a `CallCancel` body is always valid, an unset body is
`UnrecognizedPacket`. -/
def ValidatePacket : Packet → Error
  | Packet.callStart p => ValidateCallStart p
  | Packet.callData p => ValidateCallData p
  | Packet.callCancel _ => Error.OK
  | Packet.unset => Error.UnrecognizedPacket

/-- `NewCallStartPacket` from `src/srpc/packet.cpp`. -/
def NewCallStartPacket (service method data : String) (data_is_zero : Bool) : Packet :=
  Packet.callStart ⟨service, method, data, data_is_zero⟩

/-- `NewCallDataPacket` from `src/srpc/packet.cpp`: `complete` is forced
when `err` is non-OK, and the error string is stamped only then. -/
def NewCallDataPacket (data : String) (data_is_zero complete : Bool) (err : Error) : Packet :=
  Packet.callData
    ⟨data, data_is_zero, (err ≠ Error.OK : Bool) || complete,
     if err ≠ Error.OK then ErrorString err else ""⟩

/-- `NewCallCancelPacket` from `src/srpc/packet.cpp`. -/
def NewCallCancelPacket : Packet :=
  Packet.callCancel true

/-- Per-call state of `CommonRPC` from `src/srpc/common-rpc.hpp`. The
writer pointer is modelled by `hasWriter`; calls to `writer->Close()`
are recorded in `writerClosed`. The condition variable has no pure
counterpart: waking readers is visible through the latched flags that
the wait predicate of `ReadOne` inspects. -/
structure CommonRPC where
  service : String
  method : String
  localCompleted : Bool
  hasWriter : Bool
  writerClosed : Bool
  dataQueue : List String
  dataClosed : Bool
  remoteErr : Error
  canceled : Bool
deriving DecidableEq, Repr

/-- `CommonRPC::Init` from `src/srpc/common-rpc.cpp`, with the service
and method recorded by the `ClientRPC` constructor. -/
def CommonRPC.Init (service method : String) : CommonRPC :=
  ⟨service, method, false, false, false, [], false, Error.OK, false⟩

/-- `CommonRPC::Cancel` from `src/srpc/common-rpc.cpp`. -/
def CommonRPC.Cancel (s : CommonRPC) : CommonRPC :=
  { s with canceled := true }

/-- `CommonRPC::SetWriter` from `src/srpc/common-rpc.cpp`. -/
def CommonRPC.SetWriter (s : CommonRPC) : CommonRPC :=
  { s with hasWriter := true }

/-- `CommonRPC::HandleCallData` from `src/srpc/common-rpc.cpp`: on a
closed read side the packet is ignored with OK when it marks
completion and rejected with Completed otherwise; otherwise the payload
is queued when `data` is non-empty or `data_is_zero`, a non-empty
`error` forces completion and stores a generic remote error, and
completion latches `data_closed`. -/
def CommonRPC.HandleCallData (s : CommonRPC) (pkt : CallData) : Error × CommonRPC :=
  if s.dataClosed then
    if pkt.complete then (Error.OK, s) else (Error.Completed, s)
  else
    (Error.OK,
     { s with
       dataQueue := if pkt.data ≠ "" ∨ pkt.data_is_zero then s.dataQueue ++ [pkt.data]
         else s.dataQueue,
       remoteErr := if pkt.error ≠ "" then Error.Unimplemented else s.remoteErr,
       dataClosed := if pkt.complete || pkt.error ≠ "" then true else s.dataClosed })

/-- `CommonRPC::HandleStreamClose` from `src/srpc/common-rpc.cpp`: keep
the first non-OK remote error, latch `data_closed` and `canceled`, and
close the writer when one is present. -/
def CommonRPC.HandleStreamClose (s : CommonRPC) (close_err : Error) : CommonRPC :=
  { s with
    remoteErr := if close_err ≠ Error.OK ∧ s.remoteErr = Error.OK then close_err
      else s.remoteErr,
    dataClosed := true, canceled := true,
    writerClosed := s.writerClosed || s.hasWriter }

/-- `CommonRPC::HandleCallCancel` from `src/srpc/common-rpc.cpp`. -/
def CommonRPC.HandleCallCancel (s : CommonRPC) : Error × CommonRPC :=
  (Error.OK, s.HandleStreamClose Error.Canceled)

/-- `CommonRPC::WriteCallData` from `src/srpc/common-rpc.cpp`. The
third component lists the packets pushed through the writer, which is
modelled as a sink that accepts every write with OK. Note the
`data_is_zero` flag of the emitted packet is and-ed with `data.empty()`
at the call site of `NewCallDataPacket`. -/
def CommonRPC.WriteCallData (s : CommonRPC) (data : String) (data_is_zero complete : Bool)
    (err : Error) : Error × CommonRPC × List Packet :=
  if s.localCompleted then
    if complete ∧ data = "" ∧ data_is_zero = false then (Error.OK, s, [])
    else (Error.Completed, s, [])
  else if s.hasWriter = false then
    (Error.NilWriter,
     if complete || err ≠ Error.OK then { s with localCompleted := true } else s, [])
  else
    (Error.OK,
     if complete || err ≠ Error.OK then { s with localCompleted := true } else s,
     [NewCallDataPacket data ((data = "" : Bool) && data_is_zero) complete err])

/-- `CommonRPC::WriteCallCancelLocked` from `src/srpc/common-rpc.cpp`:
the atomic exchange latches `local_completed` before the writer null
check. -/
def CommonRPC.WriteCallCancelLocked (s : CommonRPC) : Error × CommonRPC × List Packet :=
  if s.localCompleted then (Error.Completed, s, [])
  else if s.hasWriter = false then
    (Error.NilWriter, { s with localCompleted := true }, [])
  else (Error.OK, { s with localCompleted := true }, [NewCallCancelPacket])

/-- `CommonRPC::WriteCallCancel` from `src/srpc/common-rpc.cpp`. -/
def CommonRPC.WriteCallCancel (s : CommonRPC) : Error × CommonRPC × List Packet :=
  s.WriteCallCancelLocked

/-- `CommonRPC::CloseLocked` from `src/srpc/common-rpc.cpp`. -/
def CommonRPC.CloseLocked (s : CommonRPC) : CommonRPC :=
  { s with
    dataClosed := true,
    localCompleted := true,
    remoteErr := if s.remoteErr = Error.OK then Error.Canceled else s.remoteErr,
    writerClosed := s.writerClosed || s.hasWriter,
    canceled := true }

/-- One non-blocking step of `CommonRPC::ReadOne` from
`src/srpc/common-rpc.cpp`. `none` means the loop would block on the
condition variable (queue empty, read side open, no remote error, not
canceled). The branch order follows the loop body: the queue is
drained before a terminal condition is reported, and the canceled
fallback (the `ctx_done` path after a wakeup) fires only when no other
condition holds. -/
def CommonRPC.ReadOneStep (s : CommonRPC) : Option (Error × Option String × CommonRPC) :=
  match s.dataQueue with
  | d :: rest => some (Error.OK, some d, { s with dataQueue := rest })
  | [] =>
    if s.dataClosed ∨ s.remoteErr ≠ Error.OK then
      some ((if s.remoteErr ≠ Error.OK then s.remoteErr else Error.EOF_), none, s)
    else if s.canceled then
      some (Error.Canceled, none, s.CloseLocked)
    else none

/-- Result of `ClientRPC::Start` from `src/srpc/client-rpc.cpp` for a
non-null writer argument: the error code, the updated call state, the
packets pushed through the argument writer, and whether the argument
writer was closed. When the call is already canceled the writer is
closed and nothing is emitted; otherwise the writer is attached and a
single `CallStart` is emitted carrying `first_msg` as data, with
`data_is_zero` set only when `write_first_msg` holds and `first_msg`
is empty. The sink accepts the write with OK. -/
def ClientRPC.Start (s : CommonRPC) (write_first_msg : Bool) (first_msg : String) :
    Error × CommonRPC × List Packet × Bool :=
  if s.canceled then
    (Error.Canceled, s.Cancel, [], true)
  else
    (Error.OK, { s with hasWriter := true },
     [NewCallStartPacket s.service s.method first_msg
        (write_first_msg && (first_msg = "" : Bool))], false)

/-- `ClientRPC::HandleStreamClose` from `src/srpc/client-rpc.cpp`: the
override keeps the first non-OK remote error, latches `data_closed`
and cancels, but, unlike `CommonRPC::HandleStreamClose`, never calls
`writer_->Close()`. -/
def ClientRPC.HandleStreamClose (s : CommonRPC) (close_err : Error) : CommonRPC :=
  let s₁ := if close_err ≠ Error.OK ∧ s.remoteErr = Error.OK then
      { s with remoteErr := close_err }
    else s
  { s₁ with dataClosed := true, canceled := true }

/-- Worker events of the server-side call: packets pushed through the
shared writer, the `writer_->Close()` call, and the `Cancel()` call,
in program order. -/
inductive WEvent where
  | wrote (p : Packet)
  | closedWriter
  | canceledCall
deriving DecidableEq, Repr

/-- Packets pushed through the writer, extracted from an event trace. -/
def writtenPackets (evs : List WEvent) : List Packet :=
  evs.filterMap fun e => match e with
    | WEvent.wrote p => some p
    | _ => none

/-- `ServerRPC::InvokeRPC` from `src/srpc/server-rpc.cpp`. The invoker
runs first against the stream view; its writer activity is the trace
`handlerEvents` and its result is `(found, err)`. Afterwards the worker
remaps a not-found OK result to Unimplemented, writes the terminal
`CallData` built by `NewCallDataPacket "" false true err`, closes the
writer and cancels the call. -/
def ServerRPC.InvokeRPC (handlerEvents : List WEvent) (found : Bool) (err : Error) :
    List WEvent :=
  handlerEvents ++
    [WEvent.wrote (NewCallDataPacket "" false true
       (if err = Error.OK ∧ found = false then Error.Unimplemented else err)),
     WEvent.closedWriter, WEvent.canceledCall]

/-- Fold of `CommonRPC::HandleCallData` over an arriving packet list. -/
def CommonRPC.HandleCallDataList (s : CommonRPC) : List CallData → CommonRPC
  | [] => s
  | p :: ps => ((s.HandleCallData p).2).HandleCallDataList ps

/-- Repeated `ReadOne` until a non-payload result, driven by
`ReadOneStep`; the fuel argument dominates the queue length so the
drain always reaches the terminal step on a closed call. Returns the
payload sequence and the terminal code (`Error.OK` is returned only
from the would-block case, which is unreachable once `data_closed`
holds). -/
def CommonRPC.drainFuel : Nat → CommonRPC → List String × Error
  | 0, _ => ([], Error.OK)
  | n + 1, s =>
    match s.ReadOneStep with
    | some (_, some d, s') =>
      let r := CommonRPC.drainFuel n s'
      (d :: r.1, r.2)
    | some (e, none, _) => ([], e)
    | none => ([], Error.OK)

/-- All successive `ReadOne` results of a call: the payloads in order,
then the terminal code. -/
def CommonRPC.drainReads (s : CommonRPC) : List String × Error :=
  CommonRPC.drainFuel (s.dataQueue.length + 1) s

/-- Restatement of the quantified spec invariant on the read sequence:
the payloads of the packets satisfying `data non-empty or data_is_zero`
in the arrival order, up to and including the first packet that latches
`data_closed` (one with `complete` or a non-empty `error`); packets
after that latch contribute nothing. -/
def specAcceptedPayloads : List CallData → List String
  | [] => []
  | p :: ps =>
    let enq := if p.data ≠ "" ∨ p.data_is_zero then [p.data] else []
    if p.complete ∨ p.error ≠ "" then enq else enq ++ specAcceptedPayloads ps

/-- Restatement of the spec: the remote error after the arrival list,
namely the generic remote error when the packet latching `data_closed`
carried a non-empty error, OK otherwise. -/
def specRemoteErr : List CallData → Error
  | [] => Error.OK
  | p :: ps =>
    if p.error ≠ "" then Error.Unimplemented
    else if p.complete then Error.OK
    else specRemoteErr ps

/-- Whether some packet of the arrival list latches `data_closed`. -/
def specClosed (ps : List CallData) : Bool :=
  ps.any fun p => p.complete || p.error ≠ ""

/-- Registered handler as seen by `Mux::InvokeMethod` in
`src/srpc/mux.cpp`: only the result pair of its `InvokeMethod` matters
to the dispatch logic, so the handler is abstracted to that result. -/
structure MuxHandler where
  res : Bool × Error
deriving DecidableEq, Repr

/-- Lookup in a `std::map` modelled as an association list: the first
binding of the key wins. -/
def mapFind {α : Type} : List (String × α) → String → Option α
  | [], _ => none
  | (k, v) :: rest, key => if k = key then some v else mapFind rest key

/-- Mux state from `src/srpc/mux.hpp`: the two-level service map in its
iteration order and the fallback invokers in registration order, a null
fallback entry modelled as `none`; a fallback invoker is abstracted to
its `InvokeMethod` result. -/
structure Mux where
  services : List (String × List (String × MuxHandler))
  fallback : List (Option (Bool × Error))
deriving DecidableEq, Repr

/-- Search loop of `Mux::InvokeMethod` for an empty service id: walk
all services in iteration order and take the first whose method map
contains the method id. -/
def findEmptyService : List (String × List (String × MuxHandler)) → String →
    Option MuxHandler
  | [], _ => none
  | (_, ms) :: rest, mid =>
    match mapFind ms mid with
    | some h => some h
    | none => findEmptyService rest mid

/-- Fallback loop of `Mux::InvokeMethod`: skip null invokers, return
the first result with a non-OK error or `handled` set, `(false, OK)`
when exhausted. -/
def tryFallbacks : List (Option (Bool × Error)) → Bool × Error
  | [] => (false, Error.OK)
  | none :: rest => tryFallbacks rest
  | some r :: rest => if r.2 ≠ Error.OK ∨ r.1 then r else tryFallbacks rest

/-- `Mux::InvokeMethod` from `src/srpc/mux.cpp`: resolve the handler
(searching all services when the service id is empty, otherwise
service then method), call it when found, otherwise run the fallback
chain. -/
def Mux.InvokeMethod (m : Mux) (service_id method_id : String) : Bool × Error :=
  match (if service_id = "" then findEmptyService m.services method_id
         else match mapFind m.services service_id with
              | some ms => mapFind ms method_id
              | none => none) with
  | some h => h.res
  | none => tryFallbacks m.fallback

end Starpc

namespace Rpcstream

open Starpc (Error ErrorString)

/-- The `RpcStreamPacket` protobuf tagged union from
`src/rpcstream/rpcstream.cpp`, with an explicit unset-body case. -/
inductive RpcStreamPacket where
  | init (component_id : String)
  | ack (error : String)
  | data (bytes : String)
  | unset
deriving DecidableEq, Repr

/-- Payloads of the `Data` envelopes of a packet list, in order. -/
def dataFrames (l : List RpcStreamPacket) : List String :=
  l.filterMap fun p => match p with
    | RpcStreamPacket.data b => some b
    | _ => none

/-- `OpenRpcStream` from `src/rpcstream/rpcstream.cpp`. The stream is
modelled by its inbound packet list (`Recv` pops the head and reports
EOF on exhaustion) and a sink that accepts every `Send` with OK; the
result is the error code and the packets sent. -/
def OpenRpcStream (incoming : List RpcStreamPacket) (component_id : String)
    (wait_ack : Bool) : Error × List RpcStreamPacket :=
  if wait_ack then
    match incoming with
    | [] => (Error.EOF_, [RpcStreamPacket.init component_id])
    | RpcStreamPacket.ack e :: _ =>
      if e ≠ "" then (Error.Unimplemented, [RpcStreamPacket.init component_id])
      else (Error.OK, [RpcStreamPacket.init component_id])
    | _ :: _ => (Error.InvalidMessage, [RpcStreamPacket.init component_id])
  else (Error.OK, [RpcStreamPacket.init component_id])

/-- Forwarding loop of `HandleRpcStream`: feed each `Data` envelope to
the server RPC (abstracted by its `HandlePacketData` result `h`),
stop with the error when it is neither OK nor Completed, ignore other
envelopes, and stop with OK on EOF. Returns the result, the dispatched
frames and whether the exit path runs `release_fn`. -/
def rpcStreamServerLoop (h : String → Error) :
    List RpcStreamPacket → Error × List String × Bool
  | [] => (Error.OK, [], true)
  | RpcStreamPacket.data b :: rest =>
    if h b ≠ Error.OK ∧ h b ≠ Error.Completed then (h b, [b], true)
    else
      match rpcStreamServerLoop h rest with
      | (r, ds, rel) => (r, b :: ds, rel)
  | _ :: rest => rpcStreamServerLoop h rest

/-- `HandleRpcStream` from `src/rpcstream/rpcstream.cpp`. `getter cid`
yields whether the invoker is non-null, whether `release_fn` is
non-null, and the lookup error. The server RPC bound to the resolved
invoker is abstracted by `h`, its `HandlePacketData` on one inner
packet body; its outbound packets flow through the `RpcStreamWriter`,
not through this function. Returns the result, the packets sent on the
outer stream by this function (the single ack), the dispatched `Data`
payloads, and whether `release_fn` was invoked. -/
def HandleRpcStream (getter : String → Bool × Bool × Error)
    (h : String → Error) (incoming : List RpcStreamPacket) :
    Error × List RpcStreamPacket × List String × Bool :=
  match incoming with
  | [] => (Error.EOF_, [], [], false)
  | RpcStreamPacket.init cid :: rest =>
    if (getter cid).2.2 ≠ Error.OK then
      ((getter cid).2.2, [RpcStreamPacket.ack (ErrorString (getter cid).2.2)], [], false)
    else if (getter cid).1 = false then
      (Error.Unimplemented, [RpcStreamPacket.ack "component not found"], [], false)
    else
      match rpcStreamServerLoop h rest with
      | (r, ds, rel) => (r, [RpcStreamPacket.ack ""], ds, (getter cid).2.1 && rel)
  | _ :: _ => (Error.InvalidMessage, [], [], false)

end Rpcstream

namespace Starpc

/-- A packet arriving after the read side latched leaves the state
unchanged: both branches of the closed case of `HandleCallData` return
the state as received. -/
theorem HandleCallData_closed (s : CommonRPC) (p : CallData) (h : s.dataClosed = true) :
    (s.HandleCallData p).2 = s := by
  simp only [CommonRPC.HandleCallData, h, if_true]
  split <;> rfl

/-- Packets arriving after the read side latched leave the state
unchanged, list version. -/
theorem HandleCallDataList_closed (s : CommonRPC) (ps : List CallData)
    (h : s.dataClosed = true) : s.HandleCallDataList ps = s := by
  induction ps with
  | nil => rfl
  | cons p ps ih =>
    simp only [CommonRPC.HandleCallDataList, HandleCallData_closed s p h]
    exact ih

/-- Field effect of one `HandleCallData` on an open call: the payload
is appended exactly when `data` is non-empty or `data_is_zero`. -/
theorem HandleCallData_open_queue (s : CommonRPC) (p : CallData) (h : s.dataClosed = false) :
    (s.HandleCallData p).2.dataQueue =
      s.dataQueue ++ (if p.data ≠ "" ∨ p.data_is_zero then [p.data] else []) := by
  simp only [CommonRPC.HandleCallData, h]
  split_ifs <;> simp_all

/-- Field effect of one `HandleCallData` on an open call: a non-empty
error stores the generic remote error. -/
theorem HandleCallData_open_remoteErr (s : CommonRPC) (p : CallData)
    (h : s.dataClosed = false) :
    (s.HandleCallData p).2.remoteErr =
      (if p.error ≠ "" then Error.Unimplemented else s.remoteErr) := by
  simp only [CommonRPC.HandleCallData, h]
  split_ifs <;> simp_all

/-- Field effect of one `HandleCallData` on an open call: the read side
latches exactly when the packet marks completion or carries an error. -/
theorem HandleCallData_open_dataClosed (s : CommonRPC) (p : CallData)
    (h : s.dataClosed = false) :
    (s.HandleCallData p).2.dataClosed = (p.complete || p.error ≠ "") := by
  simp only [CommonRPC.HandleCallData, h]
  split_ifs <;> simp_all

/-- State after a whole arrival list on a fresh open call: the queue
accumulates exactly the accepted payloads of the pre-latch arrivals,
the remote error and the latch agree with the specification-side
recursions. -/
theorem HandleCallDataList_open (ps : List CallData) :
    ∀ s : CommonRPC, s.dataClosed = false → s.remoteErr = Error.OK →
      (s.HandleCallDataList ps).dataQueue = s.dataQueue ++ specAcceptedPayloads ps ∧
      (s.HandleCallDataList ps).remoteErr = specRemoteErr ps ∧
      (s.HandleCallDataList ps).dataClosed = specClosed ps := by
  induction ps with
  | nil =>
    intro s h1 h2
    simp [CommonRPC.HandleCallDataList, specAcceptedPayloads, specRemoteErr, specClosed,
      h1, h2]
  | cons p ps ih =>
    intro s h1 h2
    simp only [CommonRPC.HandleCallDataList]
    by_cases hterm : p.complete ∨ p.error ≠ ""
    · have hclosed : (s.HandleCallData p).2.dataClosed = true := by
        rw [HandleCallData_open_dataClosed s p h1]
        rcases hterm with h | h
        · simp [h]
        · simp [h]
      rw [HandleCallDataList_closed _ ps hclosed]
      refine ⟨?_, ?_, ?_⟩
      · rw [HandleCallData_open_queue s p h1]
        have : specAcceptedPayloads (p :: ps) =
            (if p.data ≠ "" ∨ p.data_is_zero then [p.data] else []) := by
          simp only [specAcceptedPayloads, if_pos hterm]
        rw [this]
      · rw [HandleCallData_open_remoteErr s p h1, h2]
        by_cases he : p.error = ""
        · have hc : p.complete = true := by
            rcases hterm with h | h
            · exact h
            · exact absurd he h
          simp [specRemoteErr, he, hc]
        · simp [specRemoteErr, he]
      · rw [hclosed]
        have : specClosed (p :: ps) = true := by
          simp only [specClosed, List.any_cons]
          rcases hterm with h | h
          · simp [h]
          · simp [h]
        rw [this]
    · push_neg at hterm
      obtain ⟨hc, he⟩ := hterm
      have hc' : p.complete = false := by simpa using hc
      have hopen : (s.HandleCallData p).2.dataClosed = false := by
        rw [HandleCallData_open_dataClosed s p h1, hc']
        simp [he]
      have herr : (s.HandleCallData p).2.remoteErr = Error.OK := by
        rw [HandleCallData_open_remoteErr s p h1, h2]
        simp [he]
      obtain ⟨ihq, ihe, ihc⟩ := ih _ hopen herr
      refine ⟨?_, ?_, ?_⟩
      · rw [ihq, HandleCallData_open_queue s p h1, List.append_assoc]
        have : specAcceptedPayloads (p :: ps) =
            (if p.data ≠ "" ∨ p.data_is_zero then [p.data] else []) ++
              specAcceptedPayloads ps := by
          simp only [specAcceptedPayloads]
          rw [if_neg]
          intro hcon
          rcases hcon with h | h
          · rw [hc'] at h
            exact Bool.false_ne_true h
          · exact h he
        rw [this]
      · rw [ihe]
        simp [specRemoteErr, he, hc']
      · rw [ihc]
        simp [specClosed, List.any_cons, he, hc']

/-- Unfolding equation of `drainFuel` at a successor fuel value. -/
theorem drainFuel_succ (n : Nat) (s : CommonRPC) :
    CommonRPC.drainFuel (n + 1) s =
      match s.ReadOneStep with
      | some (_, some d, s') =>
        let r := CommonRPC.drainFuel n s'
        (d :: r.1, r.2)
      | some (e, none, _) => ([], e)
      | none => ([], Error.OK) := rfl

/-- Drain of a latched call: the reads return the queued payloads in
order, then the remote error when it is non-OK, else EOF. -/
theorem drainFuel_closed (q : List String) :
    ∀ s : CommonRPC, s.dataQueue = q → s.dataClosed = true →
      CommonRPC.drainFuel (q.length + 1) s =
        (q, if s.remoteErr ≠ Error.OK then s.remoteErr else Error.EOF_) := by
  induction q with
  | nil =>
    intro s hq h
    simp [CommonRPC.drainFuel, CommonRPC.ReadOneStep, hq, h]
  | cons d rest ih =>
    intro s hq h
    have hstep : s.ReadOneStep = some (Error.OK, some d, { s with dataQueue := rest }) := by
      simp [CommonRPC.ReadOneStep, hq]
    have hrec := ih { s with dataQueue := rest } rfl h
    rw [drainFuel_succ, hstep]
    simp only [List.length_cons]
    rw [hrec]

/-- C1: for every call, starting from the freshly initialized state and
any arrival list that latches `data_closed`, the successive `ReadOne`
results are exactly the `CallData.data` payloads of the packets with
`data` non-empty or `data_is_zero` that were handled before the latch,
in order; once drained, `ReadOne` returns the remote error if it is
non-OK and EOF otherwise, and no payload of a packet arriving after
the latch is ever returned. -/
theorem c1_readone_sequence (svc m : String) (ps : List CallData)
    (h : specClosed ps = true) :
    (CommonRPC.HandleCallDataList (CommonRPC.Init svc m) ps).drainReads =
      (specAcceptedPayloads ps,
       if specRemoteErr ps ≠ Error.OK then specRemoteErr ps else Error.EOF_) := by
  obtain ⟨hq, he, hc⟩ := HandleCallDataList_open ps (CommonRPC.Init svc m) rfl rfl
  have hq' : (CommonRPC.HandleCallDataList (CommonRPC.Init svc m) ps).dataQueue =
      specAcceptedPayloads ps := by simpa [CommonRPC.Init] using hq
  have hc' : (CommonRPC.HandleCallDataList (CommonRPC.Init svc m) ps).dataClosed = true := by
    rw [hc, h]
  have hdrain := drainFuel_closed (specAcceptedPayloads ps) _ hq' hc'
  unfold CommonRPC.drainReads
  rw [hq', hdrain, he]

/-- Witness for C1 at a concrete arrival list containing a late packet
behind the completion marker. -/
theorem c1_readone_sequence_witness :
    specClosed [(⟨"a", false, false, ""⟩ : CallData), ⟨"", true, false, ""⟩,
      ⟨"", false, true, ""⟩, ⟨"late", false, false, ""⟩] = true ∧
    (CommonRPC.HandleCallDataList (CommonRPC.Init "s" "m")
      [⟨"a", false, false, ""⟩, ⟨"", true, false, ""⟩, ⟨"", false, true, ""⟩,
       ⟨"late", false, false, ""⟩]).drainReads = (["a", ""], Error.EOF_) := by
  refine ⟨by decide, ?_⟩
  exact (c1_readone_sequence "s" "m"
    [⟨"a", false, false, ""⟩, ⟨"", true, false, ""⟩, ⟨"", false, true, ""⟩,
     ⟨"late", false, false, ""⟩] (by decide)).trans (by decide)

/-- C5: once `data_closed` is latched, `HandleCallData` returns OK when
the packet is a duplicate completion and Completed otherwise, in both
cases leaving the call state, in particular the queue, unchanged. -/
theorem c5_handleCallData_closed (s : CommonRPC) (p : CallData)
    (h : s.dataClosed = true) :
    s.HandleCallData p = ((if p.complete then Error.OK else Error.Completed), s) := by
  cases hc : p.complete <;> simp [CommonRPC.HandleCallData, h, hc]

/-- Witness for C5 at a closed call and a non-completion packet. -/
theorem c5_handleCallData_closed_witness :
    (⟨"s", "m", false, false, false, [], true, Error.OK, false⟩ : CommonRPC).dataClosed
        = true ∧
    CommonRPC.HandleCallData ⟨"s", "m", false, false, false, [], true, Error.OK, false⟩
        ⟨"x", false, false, ""⟩
      = (Error.Completed, ⟨"s", "m", false, false, false, [], true, Error.OK, false⟩) :=
  ⟨rfl, (c5_handleCallData_closed _ _ rfl).trans (by decide)⟩

/-- C3: a `WriteCallCancel` that returned OK has latched local
completion; on any call with the latch set, `WriteCallData` returns OK
for the degenerate no-op and Completed otherwise, emits nothing and
leaves the state unchanged; the inbound mutators never clear the
latch, so the property persists. -/
theorem c3_writeCallData_after_cancel (s s' : CommonRPC) (data : String)
    (dz c : Bool) (e : Error) (p : CallData) :
    ((s.WriteCallCancel).1 = Error.OK → ((s.WriteCallCancel).2.1).localCompleted = true) ∧
    (s'.localCompleted = true →
      s'.WriteCallData data dz c e =
        ((if c ∧ data = "" ∧ dz = false then Error.OK else Error.Completed), s', [])) ∧
    ((s'.HandleCallData p).2.localCompleted = s'.localCompleted) ∧
    ((s'.HandleStreamClose e).localCompleted = s'.localCompleted) := by
  refine ⟨?_, ?_, ?_, ?_⟩
  · intro h
    unfold CommonRPC.WriteCallCancel CommonRPC.WriteCallCancelLocked at h ⊢
    split_ifs at h ⊢
    simp_all
  · intro h
    simp only [CommonRPC.WriteCallData, h, if_true]
    split <;> rfl
  · unfold CommonRPC.HandleCallData
    split_ifs <;> rfl
  · unfold CommonRPC.HandleStreamClose
    rfl

/-- Witness for C3 at a call with a writer attached. -/
theorem c3_writeCallData_after_cancel_witness :
    (CommonRPC.WriteCallCancel ⟨"s", "m", false, true, false, [], false, Error.OK, false⟩).1
        = Error.OK ∧
    ((CommonRPC.WriteCallCancel
        ⟨"s", "m", false, true, false, [], false, Error.OK, false⟩).2.1).localCompleted
        = true ∧
    CommonRPC.WriteCallData ⟨"s", "m", true, true, false, [], false, Error.OK, false⟩
        "x" false false Error.OK
      = (Error.Completed, ⟨"s", "m", true, true, false, [], false, Error.OK, false⟩, []) := by
  refine ⟨by decide, ?_, ?_⟩
  · exact (c3_writeCallData_after_cancel
      ⟨"s", "m", false, true, false, [], false, Error.OK, false⟩
      ⟨"s", "m", true, true, false, [], false, Error.OK, false⟩
      "x" false false Error.OK ⟨"", false, false, ""⟩).1 (by decide)
  · exact ((c3_writeCallData_after_cancel
      ⟨"s", "m", false, true, false, [], false, Error.OK, false⟩
      ⟨"s", "m", true, true, false, [], false, Error.OK, false⟩
      "x" false false Error.OK ⟨"", false, false, ""⟩).2.1 rfl).trans (by decide)

/-- C10: `WriteCallCancel` on a call whose writer is still null returns
NilWriter and emits nothing, yet latches local completion first, so a
later `WriteCallCancel` returns Completed and a later `WriteCallData`
returns Completed (OK only for the degenerate no-op) and emits
nothing, even after a writer is attached. -/
theorem c10_cancel_nilwriter_latches (s : CommonRPC) (data : String) (dz c : Bool)
    (e : Error) (hw : s.hasWriter = false) (hl : s.localCompleted = false) :
    s.WriteCallCancel = (Error.NilWriter, { s with localCompleted := true }, []) ∧
    ({ s with localCompleted := true } : CommonRPC).WriteCallCancel
      = (Error.Completed, { s with localCompleted := true }, []) ∧
    (({ s with localCompleted := true } : CommonRPC).SetWriter).WriteCallData data dz c e
      = ((if c ∧ data = "" ∧ dz = false then Error.OK else Error.Completed),
         ({ s with localCompleted := true } : CommonRPC).SetWriter, []) := by
  refine ⟨?_, ?_, ?_⟩
  · unfold CommonRPC.WriteCallCancel CommonRPC.WriteCallCancelLocked
    simp [hw, hl]
  · unfold CommonRPC.WriteCallCancel CommonRPC.WriteCallCancelLocked
    simp
  · by_cases hc : (c = true) ∧ data = "" ∧ dz = false <;>
      simp [CommonRPC.SetWriter, CommonRPC.WriteCallData, hc]

/-- Witness for C10 at a fresh call without a writer. -/
theorem c10_cancel_nilwriter_latches_witness :
    CommonRPC.WriteCallCancel (CommonRPC.Init "s" "m")
      = (Error.NilWriter, ⟨"s", "m", true, false, false, [], false, Error.OK, false⟩, []) ∧
    CommonRPC.WriteCallCancel ⟨"s", "m", true, false, false, [], false, Error.OK, false⟩
      = (Error.Completed, ⟨"s", "m", true, false, false, [], false, Error.OK, false⟩, []) ∧
    CommonRPC.WriteCallData
        (CommonRPC.SetWriter ⟨"s", "m", true, false, false, [], false, Error.OK, false⟩)
        "x" false false Error.OK
      = (Error.Completed,
         CommonRPC.SetWriter ⟨"s", "m", true, false, false, [], false, Error.OK, false⟩,
         []) := by
  have h := c10_cancel_nilwriter_latches (CommonRPC.Init "s" "m") "x" false false
    Error.OK rfl rfl
  refine ⟨h.1.trans (by decide), ?_, ?_⟩
  · exact (h.2.1).trans (by decide)
  · exact (h.2.2).trans (by decide)

/-- Counterexample to C6 as stated: on the client side the
`HandleStreamClose` override never calls `writer_->Close()`, so with a
writer present the writer is not closed. -/
theorem c6_counterexample :
    (⟨"s", "m", false, true, false, [], false, Error.OK, false⟩ : CommonRPC).hasWriter
        = true ∧
    (ClientRPC.HandleStreamClose ⟨"s", "m", false, true, false, [], false, Error.OK, false⟩
        Error.EOF_).writerClosed = false := by decide

/-- C6 amended: `HandleStreamClose` keeps the first non-OK remote
error, latches `data_closed` and `canceled` (which wakes blocked
readers); the `CommonRPC` version additionally closes the writer when
one is present, while the `ClientRPC` override leaves the writer
unclosed. -/
theorem c6_handleStreamClose (s : CommonRPC) (e : Error) :
    (s.HandleStreamClose e).remoteErr
        = (if e ≠ Error.OK ∧ s.remoteErr = Error.OK then e else s.remoteErr) ∧
    (s.HandleStreamClose e).dataClosed = true ∧
    (s.HandleStreamClose e).canceled = true ∧
    (s.hasWriter = true → (s.HandleStreamClose e).writerClosed = true) ∧
    (ClientRPC.HandleStreamClose s e).remoteErr
        = (if e ≠ Error.OK ∧ s.remoteErr = Error.OK then e else s.remoteErr) ∧
    (ClientRPC.HandleStreamClose s e).dataClosed = true ∧
    (ClientRPC.HandleStreamClose s e).canceled = true ∧
    (ClientRPC.HandleStreamClose s e).writerClosed = s.writerClosed := by
  unfold CommonRPC.HandleStreamClose ClientRPC.HandleStreamClose
  split_ifs <;> simp_all

/-- Witness for C6 at a call with a writer present and a non-OK close
error. -/
theorem c6_handleStreamClose_witness :
    (⟨"s", "m", false, true, false, [], false, Error.OK, false⟩ : CommonRPC).hasWriter
        = true ∧
    (CommonRPC.HandleStreamClose ⟨"s", "m", false, true, false, [], false, Error.OK, false⟩
        Error.EOF_).writerClosed = true := by
  refine ⟨rfl, ?_⟩
  exact (c6_handleStreamClose
    ⟨"s", "m", false, true, false, [], false, Error.OK, false⟩ Error.EOF_).2.2.2.1 rfl

/-- C2: the server worker appends, after the events of the invoker, a
single terminal `CallData` with `complete` set and the error string of
the remapped invoker error (empty field on success), then the writer
close, then the cancel; in particular the terminal packet is the last
packet written on the call. -/
theorem c2_invokeRPC_terminal (hw : List WEvent) (found : Bool) (err : Error) :
    ServerRPC.InvokeRPC hw found err =
      hw ++ [WEvent.wrote (Packet.callData ⟨"", false, true,
        if (if err = Error.OK ∧ found = false then Error.Unimplemented else err)
            ≠ Error.OK
        then ErrorString (if err = Error.OK ∧ found = false then Error.Unimplemented
          else err)
        else ""⟩), WEvent.closedWriter, WEvent.canceledCall] ∧
    writtenPackets (ServerRPC.InvokeRPC hw found err) =
      writtenPackets hw ++ [Packet.callData ⟨"", false, true,
        if (if err = Error.OK ∧ found = false then Error.Unimplemented else err)
            ≠ Error.OK
        then ErrorString (if err = Error.OK ∧ found = false then Error.Unimplemented
          else err)
        else ""⟩] := by
  constructor
  · unfold ServerRPC.InvokeRPC NewCallDataPacket
    split_ifs <;> simp_all
  · unfold ServerRPC.InvokeRPC NewCallDataPacket writtenPackets
    split_ifs <;> simp_all

/-- Counterexample to C4 as stated: a `CallStart` with both ids empty
has an empty `rpc_service`, yet `ValidatePacket` reports the method id
first, so the claimed iff for EmptyServiceID fails. -/
theorem c4_counterexample :
    ValidatePacket (Packet.callStart ⟨"", "", "", false⟩) = Error.EmptyMethodID ∧
    Error.EmptyMethodID ≠ Error.EmptyServiceID := by decide

/-- C4 amended: `ValidatePacket` returns EmptyMethodID iff the packet
is a `CallStart` with empty method id; EmptyServiceID iff it is a
`CallStart` with non-empty method id and empty service id; EmptyPacket
iff it is a `CallData` with no content bit set; UnrecognizedPacket iff
no body variant is set; and the result is always one of those four
codes or OK, so together with the iffs it returns OK on every other
packet. -/
theorem c4_validate_characterization (pkt : Packet) :
    (ValidatePacket pkt = Error.EmptyMethodID ↔
      ∃ cs, pkt = Packet.callStart cs ∧ cs.rpc_method = "") ∧
    (ValidatePacket pkt = Error.EmptyServiceID ↔
      ∃ cs, pkt = Packet.callStart cs ∧ cs.rpc_method ≠ "" ∧ cs.rpc_service = "") ∧
    (ValidatePacket pkt = Error.EmptyPacket ↔
      ∃ cd, pkt = Packet.callData cd ∧ cd.data = "" ∧ cd.data_is_zero = false ∧
        cd.complete = false ∧ cd.error = "") ∧
    (ValidatePacket pkt = Error.UnrecognizedPacket ↔ pkt = Packet.unset) ∧
    (ValidatePacket pkt = Error.OK ∨ ValidatePacket pkt = Error.EmptyMethodID ∨
      ValidatePacket pkt = Error.EmptyServiceID ∨
      ValidatePacket pkt = Error.EmptyPacket ∨
      ValidatePacket pkt = Error.UnrecognizedPacket) := by
  cases pkt with
  | callStart p =>
    simp only [ValidatePacket, ValidateCallStart]
    split_ifs with h1 h2 <;>
      simp_all [Packet.callStart.injEq]
  | callData p =>
    simp only [ValidatePacket, ValidateCallData]
    split_ifs with h1
    · simp_all [Packet.callData.injEq]
    · refine ⟨by simp, by simp, ?_, by simp, Or.inl rfl⟩
      simp only [Packet.callData.injEq]
      constructor
      · intro hok
        exact absurd hok (by decide)
      · rintro ⟨cd, rfl, h2, h3, h4, h5⟩
        exact absurd (h1 ⟨h2, by simp [h4], h5, by simp [h3]⟩) (fun hcon => hcon)
  | callCancel b => simp [ValidatePacket]
  | unset => simp [ValidatePacket]

/-- Counterexample to C7 as stated: with `write_first_msg` false and a
non-empty `first_msg`, the emitted `CallStart` still carries
`first_msg` as its data instead of empty data. -/
theorem c7_counterexample :
    (ClientRPC.Start ⟨"svc", "mth", false, false, false, [], false, Error.OK, false⟩
        false "x").2.2.1
      = [Packet.callStart ⟨"svc", "mth", "x", false⟩] ∧ ("x" : String) ≠ "" := by decide

/-- C7 amended: on a non-canceled call `Start` attaches the writer and
emits exactly one `CallStart` whose data always equals `first_msg` and
whose `data_is_zero` is `write_first_msg` and-ed with the emptiness of
`first_msg`; on an already canceled call it closes the writer and
returns Canceled without emitting anything. -/
theorem c7_start (s : CommonRPC) (wfm : Bool) (fm : String) :
    (s.canceled = true →
      ClientRPC.Start s wfm fm = (Error.Canceled, s.Cancel, [], true)) ∧
    (s.canceled = false →
      ClientRPC.Start s wfm fm =
        (Error.OK, { s with hasWriter := true },
         [Packet.callStart ⟨s.service, s.method, fm, wfm && (fm = "" : Bool)⟩],
         false)) := by
  constructor
  · intro h
    simp [ClientRPC.Start, h]
  · intro h
    simp [ClientRPC.Start, h, NewCallStartPacket]

/-- Witness for C7 at a canceled call and at a fresh call. -/
theorem c7_start_witness :
    ClientRPC.Start ⟨"svc", "mth", false, false, false, [], false, Error.OK, true⟩
        false "x"
      = (Error.Canceled, ⟨"svc", "mth", false, false, false, [], false, Error.OK, true⟩,
         [], true) ∧
    ClientRPC.Start ⟨"svc", "mth", false, false, false, [], false, Error.OK, false⟩
        true ""
      = (Error.OK, ⟨"svc", "mth", false, true, false, [], false, Error.OK, false⟩,
         [Packet.callStart ⟨"svc", "mth", "", true⟩], false) := by
  constructor
  · exact ((c7_start ⟨"svc", "mth", false, false, false, [], false, Error.OK, true⟩
      false "x").1 rfl).trans (by decide)
  · exact ((c7_start ⟨"svc", "mth", false, false, false, [], false, Error.OK, false⟩
      true "").2 rfl).trans (by decide)

/-- First-match characterization of the empty-service search: it
returns the handler of the first service, in iteration order, whose
method map contains the method id. -/
theorem findEmptyService_eq_head (services : List (String × List (String × MuxHandler)))
    (mid : String) :
    findEmptyService services mid =
      (services.filterMap (fun sv => mapFind sv.2 mid)).head? := by
  induction services with
  | nil => rfl
  | cons sv rest ih =>
    obtain ⟨k, ms⟩ := sv
    simp only [findEmptyService, List.filterMap_cons]
    cases h : mapFind ms mid with
    | none => simpa [h] using ih
    | some hh => simp [h]

/-- First-qualifying characterization of the fallback chain: the first
non-null fallback result that is handled or carries a non-OK error, or
the pair of false and OK when the chain is exhausted. -/
theorem tryFallbacks_eq_find (fb : List (Option (Bool × Error))) :
    tryFallbacks fb =
      ((fb.filterMap id).find? (fun r => r.1 || decide (r.2 ≠ Error.OK))).getD
        (false, Error.OK) := by
  induction fb with
  | nil => rfl
  | cons o rest ih =>
    cases o with
    | none => simpa [tryFallbacks] using ih
    | some r =>
      simp only [tryFallbacks, List.filterMap_cons, id]
      by_cases hp : r.2 ≠ Error.OK ∨ r.1 = true
      · have hb : (r.1 || decide (r.2 ≠ Error.OK)) = true := by
          rcases hp with h | h
          · simp [h]
          · simp [h]
        rw [if_pos hp, List.find?_cons,
          (hb : (fun r : Bool × Error => r.1 || decide (r.2 ≠ Error.OK)) r = true)]
        rfl
      · have hb : (r.1 || decide (r.2 ≠ Error.OK)) = false := by
          push_neg at hp
          simp [hp.1, hp.2]
        rw [if_neg hp, List.find?_cons,
          (hb : (fun r : Bool × Error => r.1 || decide (r.2 ≠ Error.OK)) r = false)]
        exact ih

/-- C8: with an empty service id the mux dispatches to the handler of
the first service containing the method; with a non-empty service id
it resolves service then method; on a primary miss it runs the
fallback invokers in registration order and returns the first result
that is handled or erroneous, or false with OK when exhausted. -/
theorem c8_invokeMethod (m : Mux) (sid mid : String) :
    (sid = "" →
      m.InvokeMethod sid mid =
        match (m.services.filterMap (fun sv => mapFind sv.2 mid)).head? with
        | some h => h.res
        | none => ((m.fallback.filterMap id).find?
            (fun r => r.1 || decide (r.2 ≠ Error.OK))).getD (false, Error.OK)) ∧
    (sid ≠ "" →
      m.InvokeMethod sid mid =
        match mapFind m.services sid with
        | some ms =>
          match mapFind ms mid with
          | some h => h.res
          | none => ((m.fallback.filterMap id).find?
              (fun r => r.1 || decide (r.2 ≠ Error.OK))).getD (false, Error.OK)
        | none => ((m.fallback.filterMap id).find?
            (fun r => r.1 || decide (r.2 ≠ Error.OK))).getD (false, Error.OK)) := by
  constructor
  · intro h
    unfold Mux.InvokeMethod
    rw [if_pos h, findEmptyService_eq_head, tryFallbacks_eq_find]
  · intro h
    unfold Mux.InvokeMethod
    rw [if_neg h, tryFallbacks_eq_find]
    cases hms : mapFind m.services sid with
    | none => rfl
    | some ms => cases hmid : mapFind ms mid <;> rfl

/-- Witness for C8: an empty-service dispatch that skips a service
without the method, and a primary miss resolved by the fallback
chain past a null entry and a declining invoker. -/
theorem c8_invokeMethod_witness :
    Mux.InvokeMethod
        ⟨[("svcA", [("m1", ⟨(true, Error.OK)⟩)]),
          ("svcB", [("m2", ⟨(false, Error.Completed)⟩)])],
         [none, some (false, Error.OK), some (true, Error.OK)]⟩ "" "m2"
      = (false, Error.Completed) ∧
    Mux.InvokeMethod
        ⟨[("svcA", [("m1", ⟨(true, Error.OK)⟩)]),
          ("svcB", [("m2", ⟨(false, Error.Completed)⟩)])],
         [none, some (false, Error.OK), some (true, Error.OK)]⟩ "svcA" "zz"
      = (true, Error.OK) := by
  constructor
  · exact ((c8_invokeMethod
      ⟨[("svcA", [("m1", ⟨(true, Error.OK)⟩)]),
        ("svcB", [("m2", ⟨(false, Error.Completed)⟩)])],
       [none, some (false, Error.OK), some (true, Error.OK)]⟩ "" "m2").1 rfl).trans
      (by decide)
  · exact ((c8_invokeMethod
      ⟨[("svcA", [("m1", ⟨(true, Error.OK)⟩)]),
        ("svcB", [("m2", ⟨(false, Error.Completed)⟩)])],
       [none, some (false, Error.OK), some (true, Error.OK)]⟩ "svcA" "zz").2
      (by decide)).trans (by decide)

end Starpc

namespace Rpcstream

open Starpc (Error ErrorString)

/-- Unfolding of `dataFrames` on a `Data` head. -/
theorem dataFrames_cons_data (b : String) (rest : List RpcStreamPacket) :
    dataFrames (RpcStreamPacket.data b :: rest) = b :: dataFrames rest := rfl

/-- The forwarding loop on a stream whose frames are all accepted (OK
or Completed) dispatches every `Data` payload in order, exits on EOF
with OK, and takes the release path. -/
theorem rpcStreamServerLoop_clean (h : String → Error) (l : List RpcStreamPacket)
    (hok : ∀ b ∈ dataFrames l, h b = Error.OK ∨ h b = Error.Completed) :
    rpcStreamServerLoop h l = (Error.OK, dataFrames l, true) := by
  induction l with
  | nil => rfl
  | cons p rest ih =>
    cases p with
    | data b =>
      have hb : h b = Error.OK ∨ h b = Error.Completed := by
        refine hok b ?_
        rw [dataFrames_cons_data]
        exact List.mem_cons_self b _
      have hcond : ¬(h b ≠ Error.OK ∧ h b ≠ Error.Completed) := by
        rcases hb with h1 | h1 <;> simp [h1]
      have hrest : ∀ x ∈ dataFrames rest, h x = Error.OK ∨ h x = Error.Completed := by
        intro x hx
        refine hok x ?_
        rw [dataFrames_cons_data]
        exact List.mem_cons_of_mem b hx
      rw [dataFrames_cons_data]
      simp only [rpcStreamServerLoop, if_neg hcond, ih hrest]
    | init c =>
      have hrest : ∀ x ∈ dataFrames rest, h x = Error.OK ∨ h x = Error.Completed :=
        fun x hx => hok x hx
      simpa [rpcStreamServerLoop, dataFrames] using ih hrest
    | ack e =>
      have hrest : ∀ x ∈ dataFrames rest, h x = Error.OK ∨ h x = Error.Completed :=
        fun x hx => hok x hx
      simpa [rpcStreamServerLoop, dataFrames] using ih hrest
    | unset =>
      have hrest : ∀ x ∈ dataFrames rest, h x = Error.OK ∨ h x = Error.Completed :=
        fun x hx => hok x hx
      simpa [rpcStreamServerLoop, dataFrames] using ih hrest

/-- C9: the tunnel handshake. The opener always sends exactly the Init
envelope with the component id; with `wait_ack` it returns OK iff the
first inbound envelope is an Ack with empty error, and an Ack with a
non-empty error maps to Unimplemented. On the server, a getter error
or a null invoker makes `HandleRpcStream` send a single Ack carrying
an error text and return a non-OK error without dispatching any Data
frame and without releasing; on the success path, when the outer
stream ends with EOF after frames the inner handler accepts, it
dispatches every `Data` payload, returns OK and invokes `release_fn`
exactly when it is non-null. -/
theorem c9_rpcstream_handshake (cid e : String) (incoming rest : List RpcStreamPacket)
    (getter : String → Bool × Bool × Error) (h : String → Error) :
    ((OpenRpcStream incoming cid true).2 = [RpcStreamPacket.init cid]) ∧
    ((OpenRpcStream incoming cid true).1 = Error.OK ↔
      ∃ tl, incoming = RpcStreamPacket.ack "" :: tl) ∧
    (incoming = RpcStreamPacket.ack e :: rest → e ≠ "" →
      (OpenRpcStream incoming cid true).1 = Error.Unimplemented) ∧
    ((getter cid).2.2 ≠ Error.OK →
      HandleRpcStream getter h (RpcStreamPacket.init cid :: rest) =
        ((getter cid).2.2,
         [RpcStreamPacket.ack (ErrorString (getter cid).2.2)], [], false)) ∧
    ((getter cid).2.2 = Error.OK → (getter cid).1 = false →
      HandleRpcStream getter h (RpcStreamPacket.init cid :: rest) =
        (Error.Unimplemented, [RpcStreamPacket.ack "component not found"], [], false)) ∧
    ((getter cid).2.2 = Error.OK → (getter cid).1 = true →
      (∀ b ∈ dataFrames rest, h b = Error.OK ∨ h b = Error.Completed) →
      HandleRpcStream getter h (RpcStreamPacket.init cid :: rest) =
        (Error.OK, [RpcStreamPacket.ack ""], dataFrames rest, (getter cid).2.1)) := by
  refine ⟨?_, ?_, ?_, ?_, ?_, ?_⟩
  · cases incoming with
    | nil => rfl
    | cons p tl => cases p with
      | ack a => by_cases ha : a ≠ "" <;> simp [OpenRpcStream, ha]
      | init c => rfl
      | data b => rfl
      | unset => rfl
  · cases incoming with
    | nil => simp [OpenRpcStream]
    | cons p tl => cases p with
      | ack a =>
        by_cases ha : a ≠ "" <;>
          simp_all [OpenRpcStream, RpcStreamPacket.ack.injEq]
      | init c => simp [OpenRpcStream]
      | data b => simp [OpenRpcStream]
      | unset => simp [OpenRpcStream]
  · intro hinc he
    subst hinc
    simp [OpenRpcStream, he]
  · intro herr
    simp [HandleRpcStream, herr]
  · intro hok hnull
    simp [HandleRpcStream, hok, hnull]
  · intro hok hinv hframes
    simp [HandleRpcStream, hok, hinv, rpcStreamServerLoop_clean h rest hframes]

/-- Witness for C9: a rejected Ack on the open side; on the server, a
getter error, a null invoker, and a clean run over one Data frame and
one ignored Init envelope with a release function present. -/
theorem c9_rpcstream_handshake_witness :
    (OpenRpcStream [RpcStreamPacket.ack "boom"] "" true).1 = Error.Unimplemented ∧
    HandleRpcStream (fun _ => (false, false, Error.Canceled)) (fun _ => Error.OK)
        [RpcStreamPacket.init "c"]
      = (Error.Canceled, [RpcStreamPacket.ack "canceled"], [], false) ∧
    HandleRpcStream (fun _ => (false, false, Error.OK)) (fun _ => Error.OK)
        [RpcStreamPacket.init "c"]
      = (Error.Unimplemented, [RpcStreamPacket.ack "component not found"], [], false) ∧
    HandleRpcStream (fun _ => (true, true, Error.OK)) (fun _ => Error.OK)
        [RpcStreamPacket.init "c", RpcStreamPacket.data "p", RpcStreamPacket.init "z"]
      = (Error.OK, [RpcStreamPacket.ack ""], ["p"], true) := by
  refine ⟨?_, ?_, ?_, ?_⟩
  · exact (c9_rpcstream_handshake "" "boom" [RpcStreamPacket.ack "boom"] []
      (fun _ => (false, false, Error.OK)) (fun _ => Error.OK)).2.2.1 rfl
      (by decide)
  · exact ((c9_rpcstream_handshake "c" "" [] []
      (fun _ => (false, false, Error.Canceled)) (fun _ => Error.OK)).2.2.2.1
      (by decide)).trans (by decide)
  · exact ((c9_rpcstream_handshake "c" "" [] []
      (fun _ => (false, false, Error.OK)) (fun _ => Error.OK)).2.2.2.2.1 rfl
      rfl).trans (by decide)
  · exact ((c9_rpcstream_handshake "c" "" []
      [RpcStreamPacket.data "p", RpcStreamPacket.init "z"]
      (fun _ => (true, true, Error.OK)) (fun _ => Error.OK)).2.2.2.2.2 rfl rfl
      (by intro b hb; left; rfl)).trans (by decide)

end Rpcstream

section ScratchChecks

example : Starpc.ValidatePacket (Starpc.Packet.callStart ⟨"", "", "", false⟩)
    = Starpc.Error.EmptyMethodID := by decide

example : Starpc.ValidatePacket (Starpc.Packet.callData ⟨"", false, false, ""⟩)
    = Starpc.Error.EmptyPacket := by decide

example :
    (Starpc.CommonRPC.HandleCallDataList (Starpc.CommonRPC.Init "s" "m")
      [⟨"a", false, false, ""⟩, ⟨"", true, false, ""⟩, ⟨"", false, true, ""⟩,
       ⟨"late", false, false, ""⟩]).drainReads
    = (["a", ""], Starpc.Error.EOF_) := by decide

example :
    (Starpc.CommonRPC.HandleCallDataList (Starpc.CommonRPC.Init "s" "m")
      [⟨"x", false, false, "boom"⟩]).drainReads
    = (["x"], Starpc.Error.Unimplemented) := by decide

example :
    Starpc.specAcceptedPayloads
      [⟨"a", false, false, ""⟩, ⟨"", true, false, ""⟩, ⟨"", false, true, ""⟩,
       ⟨"late", false, false, ""⟩] = ["a", ""] := by decide

end ScratchChecks
